import Mathlib

/-!
Verification of the resume-analysis backend (`backend/main.py`).

The Python service is a thin wrapper around an upstream LLM provider.  We give
a shallow embedding of its pure request/response logic:

* JSON values are modelled by the inductive type `Json`; Python dicts by
  association lists (`PyDict`) with Python dict semantics (first occurrence
  wins on lookup, in-place update on key assignment).
* The network is abstracted as a function `upstream : PyDict → ChatOutcome`
  mapping the request body the code builds to the observed outcome of the
  `httpx` call (status error, transport error, or a decoded JSON payload),
  and `json.loads` of the Python standard library is abstracted as a
  function `parseJson : String → Option Json` (`none` models
  `json.JSONDecodeError`; both are external to the repository).
* Paths on which the Python code would raise an uncaught exception
  (`TypeError`, `AttributeError`, `IndexError`) are modelled with
  `Except PyExn`.
* The PDF / DOCX extraction libraries are black boxes: an uploaded file is
  modelled by the per-page texts `pdfplumber` would return
  (`Option String`, `none` for a page with no extractable text) and the
  per-paragraph texts `python-docx` would return.
-/

/-- JSON values (numbers as rationals, which covers every literal the
service manipulates, including the temperature 0.3). -/
inductive Json where
  | null : Json
  | bool : Bool → Json
  | num : Rat → Json
  | str : String → Json
  | arr : List Json → Json
  | obj : List (String × Json) → Json

/-- A Python dict with string keys, as an association list in insertion
order. -/
abbrev PyDict := List (String × Json)

/-- Lookup of a key in a dict (`d[k]` / `k in d`), first occurrence wins. -/
def pyLookup (d : PyDict) (k : String) : Option Json :=
  match d with
  | [] => none
  | (k2, v) :: rest => if k2 = k then some v else pyLookup rest k

/-- Python `k in d`. -/
def pyContains (d : PyDict) (k : String) : Bool :=
  (pyLookup d k).isSome

/-- Python `d.get(k, dflt)`. -/
def pyGetD (d : PyDict) (k : String) (dflt : Json) : Json :=
  (pyLookup d k).getD dflt

/-- Python `d[k] = v` (updates the entry in place when the key exists,
appends otherwise); also the effect of `k: v` inside a dict display such
as the merge on line 231 of `main.py`. -/
def pySet (d : PyDict) (k : String) (v : Json) : PyDict :=
  match d with
  | [] => [(k, v)]
  | (k2, v2) :: rest => if k2 = k then (k2, v) :: rest else (k2, v2) :: pySet rest k v

/-- Uncaught Python exceptions of the modelled paths. -/
inductive PyExn where
  | typeError : PyExn
  | attrError : PyExn
  | indexError : PyExn

/-- Python `j.get(k, dflt)` on an arbitrary JSON value: works on dicts and
raises `AttributeError` otherwise. -/
def pyJsonGetD (j : Json) (k : String) (dflt : Json) : Except PyExn Json :=
  match j with
  | Json.obj fields => Except.ok (pyGetD fields k dflt)
  | _ => Except.error PyExn.attrError

/-- Python `j[i]` for a non-negative integer index: indexes lists and
strings, raises `IndexError` past the end and `TypeError` on other
values. -/
def pyIndex (j : Json) (i : Nat) : Except PyExn Json :=
  match j with
  | Json.arr xs =>
      match xs.get? i with
      | some x => Except.ok x
      | none => Except.error PyExn.indexError
  | Json.str s =>
      match s.data.get? i with
      | some c => Except.ok (Json.str (String.mk [c]))
      | none => Except.error PyExn.indexError
  | _ => Except.error PyExn.typeError

/-- Coercion used where Python requires a `str` (the argument of
`json.loads`); anything else raises `TypeError`. -/
def pyAsStr (j : Json) : Except PyExn String :=
  match j with
  | Json.str s => Except.ok s
  | _ => Except.error PyExn.typeError

/-- Coercion used where Python requires a mapping (the `{**parsed, ...}`
merge); anything else raises `TypeError`. -/
def pyAsObj (j : Json) : Except PyExn PyDict :=
  match j with
  | Json.obj fields => Except.ok fields
  | _ => Except.error PyExn.typeError

/-! ## Model catalog (`ModelPricing`, `ModelInfo`, `fetch_available_models`) -/

/-- The `ModelPricing` pydantic schema: eight optional decimal-string
fields, absent fields defaulting to `None`. -/
structure ModelPricing where
  prompt : Option String := none
  completion : Option String := none
  request : Option String := none
  image : Option String := none
  web_search : Option String := none
  internal_reasoning : Option String := none
  input_cache_read : Option String := none
  input_cache_write : Option String := none

/-- The values of the eight pricing fields, in the declaration order that
`pricing.__fields__.keys()` iterates. -/
def pricingFieldValues (p : ModelPricing) : List (Option String) :=
  [p.prompt, p.completion, p.request, p.image, p.web_search,
   p.internal_reasoning, p.input_cache_read, p.input_cache_write]

/-- The `is_free` computation of `fetch_available_models` (lines 106-109 of
`main.py`): every pricing field is `None`, `"0"` or `"0.0"`. -/
def isFreePricing (p : ModelPricing) : Bool :=
  (pricingFieldValues p).all fun v =>
    v == none || v == some "0" || v == some "0.0"

/-- One record of the upstream `/models` payload after pydantic decoding of
its pricing sub-object. -/
structure RawModel where
  id : String
  name : Option String
  description : Option String
  context_length : Option Int
  pricing : ModelPricing

/-- The `ModelInfo` schema returned by `/models`. -/
structure ModelInfo where
  id : String
  name : Option String
  description : Option String
  context_length : Option Int
  pricing : ModelPricing
  is_free : Bool

/-- Construction of one `ModelInfo` inside the loop of
`fetch_available_models` (lines 111-120 of `main.py`). -/
def buildModelInfo (m : RawModel) : ModelInfo :=
  { id := m.id, name := m.name, description := m.description,
    context_length := m.context_length, pricing := m.pricing,
    is_free := isFreePricing m.pricing }

/-- The reshaping loop of `fetch_available_models` (lines 102-121 of
`main.py`), applied to the decoded upstream records. -/
def fetch_available_models (data : List RawModel) : List ModelInfo :=
  data.map buildModelInfo

/-! ## Document extraction (`parse_pdf`, `parse_docx`) -/

/-- An uploaded file, reduced to what the black-box extraction libraries
would report: the filename, the per-page text of `pdfplumber`
(`page.extract_text()`, `none` when no text is extractable) and the
per-paragraph text of `python-docx`. -/
structure UploadedFile where
  filename : String
  pdfPages : List (Option String)
  docxParagraphs : List String

/-- The body of the page loop of `parse_pdf` (lines 73-76 of `main.py`):
append `page_text + "\n"` when the extracted text is truthy (i.e. neither
`None` nor the empty string). -/
def pdfStep (text : String) (pt : Option String) : String :=
  match pt with
  | some s => if s = "" then text else text ++ s ++ "\n"
  | none => text

/-- The page loop of `parse_pdf` (lines 70-77 of `main.py`). -/
def pdfConcat (pages : List (Option String)) : String :=
  pages.foldl pdfStep ""

/-- Function `parse_pdf` of `main.py`. -/
def parse_pdf (file : UploadedFile) : String :=
  pdfConcat file.pdfPages

/-- Function `parse_docx` of `main.py` (line 82): `"\n".join(p.text for p in
doc.paragraphs)`. -/
def parse_docx (file : UploadedFile) : String :=
  String.intercalate "\n" file.docxParagraphs

/-! ## Analysis client (`analyze_with_llm`) -/

/-- The f-string prompt template of `analyze_with_llm` (lines 143-180 of
`main.py`). -/
def promptTemplate (resume_text job_posting : String) : String :=
  "\n                You are an AI resume analysis assistant. Analyze the following job description and candidate resume.\n\n                JOB DESCRIPTION:\n                "
  ++ job_posting ++
  "\n\n                CANDIDATE RESUME:\n                "
  ++ resume_text ++
  "\n\n                Tasks:\n                1. Compute a relevancy score (0-100) with breakdown:\n                - Skill Match %\n                - Experience Match %\n                - Education Match %\n                2. Assess reliability and learning potential:\n                - Is the candidate consistent in skill acquisition and career progression?\n                - Does their history suggest they are a fast learner?\n                - Return a score (0-100).\n                3. Identify suspicious or potentially false information:\n                - List any red flags (exaggerated claims, missing details, vague buzzwords).\n                - Return a binary value: Suspicious (Yes/No).\n                4. Extract the candidateâ€™s key achievements:\n                - Which ones align directly with this job?\n                - Which ones are transferable to other roles?\n\n                Return result strictly in JSON:\n                \x7b\n                \"relevancy_score\": \x7b \"overall\": X, \"skills\": X, \"experience\": X, \"education\": X \x7d,\n                \"reliability_score\": X,\n                \"learning_potential\": X,\n                \"suspicious\": \"Yes/No\",\n                \"red_flags\": [ ... ],\n                \"key_achievements\": \x7b\n                    \"directly_relevant\": [ ... ],\n                    \"transferable\": [ ... ]\n                \x7d\n                \x7d\n            "

/-- The request body built by `analyze_with_llm` (lines 187-195 of
`main.py`): `messages` and `temperature` always, and `model` exactly when
`model_id` is truthy in Python, i.e. present and non-empty. -/
def requestBody (resume_text job_posting : String) (model_id : Option String) : PyDict :=
  let prompt := promptTemplate resume_text job_posting
  let body : PyDict :=
    [("messages", Json.arr
        [Json.obj [("role", Json.str "system"),
                   ("content", Json.str "You are a helpful resume analysis AI.")],
         Json.obj [("role", Json.str "user"), ("content", Json.str prompt)]]),
     ("temperature", Json.num (0.3 : Rat))]
  match model_id with
  | some s => if s = "" then body else pySet body "model" (Json.str s)
  | none => body

/-- Observable outcome of the `httpx` POST to `/chat/completions`:
`raise_for_status` raised (non-2xx status), the request failed at the
transport level, or a decoded JSON payload came back. -/
inductive ChatOutcome where
  | httpStatusError : Nat → ChatOutcome
  | requestError : String → ChatOutcome
  | success : Json → ChatOutcome

/-- Function `analyze_with_llm` (lines 136-231 of `main.py`), with the network
abstracted as `upstream` and `json.loads` abstracted as `parseJson`. -/
def analyze_with_llm (upstream : PyDict → ChatOutcome)
    (parseJson : String → Option Json)
    (resume_text job_posting : String) (model_id : Option String) :
    Except PyExn PyDict :=
  let body := requestBody resume_text job_posting model_id
  match upstream body with
  | ChatOutcome.httpStatusError status =>
      Except.ok
        [("error", Json.str ("Model request failed with status " ++ toString status)),
         ("suggest_model_change", Json.bool true)]
  | ChatOutcome.requestError msg =>
      Except.ok
        [("error", Json.str ("Network error: " ++ msg)),
         ("suggest_model_change", Json.bool true)]
  | ChatOutcome.success output => do
      let choicesV ← pyJsonGetD output "choices" (Json.arr [Json.obj []])
      let choice ← pyIndex choicesV 0
      let message ← pyJsonGetD choice "message" (Json.obj [])
      let contentV ← pyJsonGetD message "content" (Json.str "")
      let content ← pyAsStr contentV
      match parseJson content with
      | none =>
          Except.ok
            [("error", Json.str "LLM did not return valid JSON"),
             ("raw", Json.str content),
             ("suggest_model_change", Json.bool true)]
      | some parsed => do
          let fields ← pyAsObj parsed
          let modelUsed ← pyJsonGetD output "model" Json.null
          Except.ok
            (pySet (pySet fields "model_used" modelUsed)
              "raw_llm_response" (Json.str content))

/-! ## HTTP surface (`/analyze`, `/analyze/file`) -/

/-- Result of an endpoint handler: a 200 JSON body, or an
`HTTPException` with its status code and `detail` payload. -/
inductive HttpResult where
  | ok : PyDict → HttpResult
  | err : Nat → Json → HttpResult

/-- The JSON body of `POST /analyze`. -/
structure AnalysisRequest where
  resume_text : String
  job_posting : String
  model_id : Option String := none

/-! Both `/analyze` and `/analyze/file` are declared with
`response_model=AnalysisResponse` (lines 237 and 253 of `main.py`), so on
the success path FastAPI validates the returned dict against the
`AnalysisResponse` pydantic schema (lines 56-64) and serializes it through
that model: a dict missing any of the six required fields (or holding a
value of the wrong shape) raises a response-validation error that surfaces
as an HTTP 500 "Internal Server Error", and keys outside the schema are
stripped from the response.  The `HTTPException` branches (400/502) bypass
the response model.  The validators below model this for values that
already have the declared JSON shape; pydantic v1 cross-type coercions
(numeric strings to int, float truncation, numbers to str, bool as int)
are outside the modelled domain and no theorem instance relies on them. -/

/-- Shape check for `Dict[str, Any]` (`relevancy_score`). -/
def isJsonObjV : Json → Bool
  | Json.obj _ => true
  | _ => false

/-- Shape check for `int` (`reliability_score`, `learning_potential`). -/
def isJsonIntV : Json → Bool
  | Json.num q => q.den == 1
  | _ => false

/-- Shape check for `str` (`suspicious`). -/
def isJsonStrV : Json → Bool
  | Json.str _ => true
  | _ => false

/-- Shape check for `List[str]` (`red_flags`). -/
def isJsonStrListV : Json → Bool
  | Json.arr xs => xs.all isJsonStrV
  | _ => false

/-- Shape check for `Dict[str, List[str]]` (`key_achievements`). -/
def isJsonStrListDictV : Json → Bool
  | Json.obj fs => fs.all fun kv => isJsonStrListV kv.2
  | _ => false

/-- Shape check for `Optional[str]` (`model_used`). -/
def isJsonOptStrV : Json → Bool
  | Json.null => true
  | Json.str _ => true
  | _ => false

/-- The six required fields of `AnalysisResponse`, in declaration order. -/
def analysisRequiredKeys : List String :=
  ["relevancy_score", "reliability_score", "learning_potential",
   "suspicious", "red_flags", "key_achievements"]

/-- All fields of `AnalysisResponse`, in declaration order. -/
def analysisSchemaKeys : List String :=
  analysisRequiredKeys ++ ["model_used", "raw_llm_response"]

/-- FastAPI response-model validation and serialization of a returned dict
through `AnalysisResponse`: every required field must be present with a
value of its declared shape, optional fields default to null, and the
output carries exactly the schema keys in declaration order (extra keys
stripped). -/
def validateAnalysisResponse (d : PyDict) : Option PyDict := do
  let rs ← pyLookup d "relevancy_score"
  let rel ← pyLookup d "reliability_score"
  let lp ← pyLookup d "learning_potential"
  let sus ← pyLookup d "suspicious"
  let rf ← pyLookup d "red_flags"
  let ka ← pyLookup d "key_achievements"
  if isJsonObjV rs && isJsonIntV rel && isJsonIntV lp && isJsonStrV sus &&
      isJsonStrListV rf && isJsonStrListDictV ka &&
      isJsonOptStrV ((pyLookup d "model_used").getD Json.null) then
    some [("relevancy_score", rs), ("reliability_score", rel),
          ("learning_potential", lp), ("suspicious", sus),
          ("red_flags", rf), ("key_achievements", ka),
          ("model_used", (pyLookup d "model_used").getD Json.null),
          ("raw_llm_response", (pyLookup d "raw_llm_response").getD Json.null)]
  else
    none

/-- The observable HTTP outcome of returning `result` through
`response_model=AnalysisResponse`: the serialized schema projection on
validation success, and the framework 500 on a response-validation
error. -/
def serializeAnalysisResponse (result : PyDict) : HttpResult :=
  match validateAnalysisResponse result with
  | some out => HttpResult.ok out
  | none => HttpResult.err 500 (Json.str "Internal Server Error")

/-- The `/analyze` endpoint handler `analyze_resume` (lines 237-250 of
`main.py`), including the `response_model=AnalysisResponse` serialization
of its success path. -/
def analyze_resume (upstream : PyDict → ChatOutcome)
    (parseJson : String → Option Json) (request : AnalysisRequest) :
    Except PyExn HttpResult := do
  let result ← analyze_with_llm upstream parseJson
      request.resume_text request.job_posting request.model_id
  if pyContains result "error" then
    Except.ok (HttpResult.err 502 (Json.obj
      [("message", pyGetD result "error" Json.null),
       ("suggest_model_change", pyGetD result "suggest_model_change" (Json.bool false))]))
  else
    Except.ok (serializeAnalysisResponse result)

/-- Python `str.lower`, applied characterwise. -/
def pyLower (s : String) : String :=
  String.mk (s.data.map Char.toLower)

/-- Python `str.endswith`. -/
def pyEndsWith (s suffix : String) : Bool :=
  suffix.data.isSuffixOf s.data

/-- The extension dispatch of `analyze_resume_file` (lines 259-268 of
`main.py`): lowercase the filename, route `.pdf` to `parse_pdf` and
`.docx` to `parse_docx`, reject anything else (`none`). -/
def extractResumeText (file : UploadedFile) : Option String :=
  let fname := pyLower file.filename
  if pyEndsWith fname ".pdf" then some (parse_pdf file)
  else if pyEndsWith fname ".docx" then some (parse_docx file)
  else none

/-- The `/analyze/file` endpoint handler `analyze_resume_file` (lines
253-279 of `main.py`), including the `response_model=AnalysisResponse`
serialization of its success path. -/
def analyze_resume_file (upstream : PyDict → ChatOutcome)
    (parseJson : String → Option Json) (file : UploadedFile)
    (job_posting : String) (model_id : Option String) :
    Except PyExn HttpResult :=
  match extractResumeText file with
  | none =>
      Except.ok (HttpResult.err 400
        (Json.str "Unsupported file format. Only PDF or DOCX allowed."))
  | some resume_text => do
      let result ← analyze_with_llm upstream parseJson resume_text job_posting model_id
      if pyContains result "error" then
        Except.ok (HttpResult.err 502 (Json.obj
          [("message", pyGetD result "error" Json.null),
           ("suggest_model_change", pyGetD result "suggest_model_change" (Json.bool false))]))
      else
        Except.ok (serializeAnalysisResponse result)

/-! ## Concrete fixtures used in witnesses and counterexamples -/

/-- Is `needle` a contiguous sublist of the second argument? -/
def listIsInfixOf (needle : List Char) : List Char → Bool
  | [] => needle.isEmpty
  | c :: t => needle.isPrefixOf (c :: t) || listIsInfixOf needle t

/-- Does some string-valued field of a flat JSON object contain `s` as a
substring of its value? Used to check whether an error payload carries a
piece of text. -/
def objMentions (fields : PyDict) (s : String) : Bool :=
  fields.any fun kv =>
    match kv.2 with
    | Json.str a => listIsInfixOf s.data a.data
    | _ => false

/-- A parse stand-in that rejects every string, as `json.loads` would for
non-JSON text. -/
def noParse : String → Option Json := fun _ => none

/-- An upstream that always fails at the transport level. -/
def downUpstream : PyDict → ChatOutcome := fun _ => ChatOutcome.requestError "unreachable"

/-- An upstream that always answers HTTP 429. -/
def status429Upstream : PyDict → ChatOutcome := fun _ => ChatOutcome.httpStatusError 429

/-- A chat-completion payload with one choice carrying `content` and a
top-level `model` field, as OpenRouter returns it. -/
def mkChatOutput (content model : String) : Json :=
  Json.obj
    [("choices", Json.arr [Json.obj [("message", Json.obj [("content", Json.str content)])]]),
     ("model", Json.str model)]

/-- An upstream that always succeeds with `content` as the message text. -/
def chatUpstream (content : String) : PyDict → ChatOutcome :=
  fun _ => ChatOutcome.success (mkChatOutput content "openai/gpt-4o")

/-- The exact upstream message content of the test case in section 8 of the
spec. -/
def specContent : String :=
  "\x7b\"relevancy_score\":\x7b\"overall\":80,\"skills\":70,\"experience\":90,\"education\":85\x7d,\"reliability_score\":60,\"learning_potential\":75,\"suspicious\":\"No\",\"red_flags\":[],\"key_achievements\":\x7b\"directly_relevant\":[\"Led team\"],\"transferable\":[\"Public speaking\"]\x7d\x7d"

/-- The JSON object denoted by `specContent`. -/
def specFields : PyDict :=
  [("relevancy_score", Json.obj
      [("overall", Json.num 80), ("skills", Json.num 70),
       ("experience", Json.num 90), ("education", Json.num 85)]),
   ("reliability_score", Json.num 60),
   ("learning_potential", Json.num 75),
   ("suspicious", Json.str "No"),
   ("red_flags", Json.arr []),
   ("key_achievements", Json.obj
      [("directly_relevant", Json.arr [Json.str "Led team"]),
       ("transferable", Json.arr [Json.str "Public speaking"])])]

/-- A syntactically valid JSON object whose only key is a top-level
`error`. -/
def errKeyContent : String := "\x7b\"error\": \"oops\"\x7d"

/-- The JSON object denoted by `errKeyContent`. -/
def errKeyFields : PyDict := [("error", Json.str "oops")]

/-- Message content that is not valid JSON. -/
def proseContent : String := "Sure, here is my analysis of the resume..."

/-- A valid JSON object bearing no relation to the documented
`AnalysisResponse` shape: every schema key is missing and an extra key is
present. -/
def oddShapeContent : String := "\x7b\"unexpected\": 1\x7d"

/-- The JSON object denoted by `oddShapeContent`. -/
def oddShapeFields : PyDict := [("unexpected", Json.num 1)]

/-- A parse stand-in agreeing with `json.loads` on the fixture strings and
rejecting everything else. -/
def fixtureParse (s : String) : Option Json :=
  if s = specContent then some (Json.obj specFields)
  else if s = errKeyContent then some (Json.obj errKeyFields)
  else if s = oddShapeContent then some (Json.obj oddShapeFields)
  else none

/-- A PDF upload (uppercase extension) whose first page reads "A" and whose
second page has no extractable text. -/
def pdfUpload : UploadedFile := ⟨"resume.PDF", [some "A", none], []⟩

/-- A DOCX upload with an empty middle paragraph. -/
def docxUpload : UploadedFile := ⟨"resume.docx", [], ["A", "", "B"]⟩

/-- An upload with an unsupported extension. -/
def txtUpload : UploadedFile := ⟨"resume.txt", [], []⟩

/-- A fixed `/analyze` request body. -/
def req0 : AnalysisRequest := ⟨"resume text", "job posting", none⟩

/-- A model record whose pricing fields are all absent or literal zero. -/
def freeModelRecord : RawModel :=
  { id := "meta-llama/llama-3-8b", name := some "Llama 3 8B", description := none,
    context_length := some (8192 : Int),
    pricing := { prompt := some "0", completion := some "0.0" } }

/-! ## Helper lemmas -/

theorem pyLookup_pySet (d : PyDict) (k : String) (v : Json) (k2 : String) :
    pyLookup (pySet d k v) k2 = if k = k2 then some v else pyLookup d k2 := by
  induction d with
  | nil => simp [pySet, pyLookup]
  | cons hd tl ih =>
      obtain ⟨k3, v3⟩ := hd
      by_cases h3 : k3 = k
      · subst h3
        by_cases h2 : k3 = k2 <;> simp [pySet, pyLookup, h2]
      · by_cases h2 : k3 = k2
        · subst h2
          simp only [pySet, pyLookup, if_neg h3, eq_self_iff_true, ite_true]
          rw [if_neg fun h => h3 h.symm]
        · simp [pySet, pyLookup, h3, h2, ih]

theorem pyContains_pySet (d : PyDict) (k : String) (v : Json) (k2 : String) :
    pyContains (pySet d k v) k2 = (k == k2 || pyContains d k2) := by
  by_cases h : k = k2 <;>
    simp [pyContains, pyLookup_pySet, h]

theorem strEmptyAppend (s : String) : "" ++ s = s := by
  cases s
  rfl

theorem pdfConcat_foldl (pages : List (Option String)) (acc : String) :
    pages.foldl pdfStep acc = acc ++ pdfConcat pages := by
  induction pages generalizing acc with
  | nil => simp [pdfConcat, String.append_empty]
  | cons hd tl ih =>
      rw [List.foldl_cons, ih]
      conv_rhs => rw [pdfConcat, List.foldl_cons, ih]
      cases hd with
      | none =>
          simp only [pdfStep]
          rw [strEmptyAppend]
      | some s =>
          by_cases hs : s = ""
          · subst hs
            simp only [pdfStep, eq_self_iff_true, ite_true]
            rw [strEmptyAppend]
          · simp only [pdfStep, if_neg hs]
            rw [strEmptyAppend]
            simp only [String.append_assoc]

theorem exceptBindOk {e a b : Type} (x : a) (f : a → Except e b) :
    (Except.ok x >>= f : Except e b) = f x := rfl

theorem analyze_with_llm_status (upstream : PyDict → ChatOutcome)
    (parseJson : String → Option Json) (r j : String) (m : Option String)
    (status : Nat)
    (hup : upstream (requestBody r j m) = ChatOutcome.httpStatusError status) :
    analyze_with_llm upstream parseJson r j m =
      Except.ok
        [("error", Json.str ("Model request failed with status " ++ toString status)),
         ("suggest_model_change", Json.bool true)] := by
  simp only [analyze_with_llm, hup]

theorem analyze_with_llm_parse_fail (upstream : PyDict → ChatOutcome)
    (parseJson : String → Option Json) (r j : String) (m : Option String)
    (outFields chFields msgFields : PyDict) (rest : List Json) (content : String)
    (hup : upstream (requestBody r j m) = ChatOutcome.success (Json.obj outFields))
    (hch : pyLookup outFields "choices" = some (Json.arr (Json.obj chFields :: rest)))
    (hmsg : pyLookup chFields "message" = some (Json.obj msgFields))
    (hcont : pyLookup msgFields "content" = some (Json.str content))
    (hparse : parseJson content = none) :
    analyze_with_llm upstream parseJson r j m =
      Except.ok
        [("error", Json.str "LLM did not return valid JSON"),
         ("raw", Json.str content),
         ("suggest_model_change", Json.bool true)] := by
  simp only [analyze_with_llm, hup, exceptBindOk, pyJsonGetD, pyGetD, hch,
    Option.getD_some, pyIndex, List.get?, hmsg, hcont, pyAsStr, hparse]

theorem analyze_with_llm_parse_ok (upstream : PyDict → ChatOutcome)
    (parseJson : String → Option Json) (r j : String) (m : Option String)
    (outFields chFields msgFields fields : PyDict) (rest : List Json) (content : String)
    (hup : upstream (requestBody r j m) = ChatOutcome.success (Json.obj outFields))
    (hch : pyLookup outFields "choices" = some (Json.arr (Json.obj chFields :: rest)))
    (hmsg : pyLookup chFields "message" = some (Json.obj msgFields))
    (hcont : pyLookup msgFields "content" = some (Json.str content))
    (hparse : parseJson content = some (Json.obj fields)) :
    analyze_with_llm upstream parseJson r j m =
      Except.ok
        (pySet (pySet fields "model_used" (pyGetD outFields "model" Json.null))
          "raw_llm_response" (Json.str content)) := by
  simp only [analyze_with_llm, hup, exceptBindOk, pyJsonGetD, pyGetD, hch,
    Option.getD_some, pyIndex, List.get?, hmsg, hcont, pyAsStr, hparse, pyAsObj]

theorem optBindNone {a b : Type} (x : Option a) (f : a → Option b)
    (h : ∀ v, f v = none) : (x >>= f : Option b) = none := by
  cases x with
  | none => rfl
  | some v => exact h v

theorem validateAnalysisResponse_missing (d : PyDict) (k : String)
    (hk : k ∈ analysisRequiredKeys) (hmiss : pyLookup d k = none) :
    validateAnalysisResponse d = none := by
  fin_cases hk <;>
    (unfold validateAnalysisResponse
     repeat (first
       | (rw [hmiss]; rfl)
       | (apply optBindNone; intro v)))

theorem validateAnalysisResponse_shape (d out : PyDict)
    (h : validateAnalysisResponse d = some out) :
    ∃ rs rel lp sus rf ka,
      pyLookup d "relevancy_score" = some rs ∧
      pyLookup d "reliability_score" = some rel ∧
      pyLookup d "learning_potential" = some lp ∧
      pyLookup d "suspicious" = some sus ∧
      pyLookup d "red_flags" = some rf ∧
      pyLookup d "key_achievements" = some ka ∧
      out = [("relevancy_score", rs), ("reliability_score", rel),
             ("learning_potential", lp), ("suspicious", sus),
             ("red_flags", rf), ("key_achievements", ka),
             ("model_used", (pyLookup d "model_used").getD Json.null),
             ("raw_llm_response", (pyLookup d "raw_llm_response").getD Json.null)] := by
  unfold validateAnalysisResponse at h
  simp only [Option.bind_eq_bind, Option.bind_eq_some] at h
  obtain ⟨rs, h1, rel, h2, lp, h3, sus, h4, rf, h5, ka, h6, h⟩ := h
  split at h
  · exact ⟨rs, rel, lp, sus, rf, ka, h1, h2, h3, h4, h5, h6, (Option.some.inj h).symm⟩
  · exact Option.noConfusion h

set_option maxRecDepth 16384

/-! ## Claims -/

/-- C1: For every pricing mapping, the derived `is_free` flag on a
`ModelInfo` produced by the model-catalog fetch is true if and only if
every one of the eight defined pricing fields is absent or equal to the
literal string "0" or "0.0"; any field holding any other value (including
"0.00" or a non-numeric string) makes `is_free` false. -/
theorem c1_is_free_iff_zero (data : List RawModel) (info : ModelInfo)
    (hmem : info ∈ fetch_available_models data) :
    (info.is_free = true ↔
      ∀ v ∈ pricingFieldValues info.pricing,
        v = none ∨ v = some "0" ∨ v = some "0.0") := by
  obtain ⟨m, hm, rfl⟩ := List.mem_map.mp hmem
  simp [buildModelInfo, isFreePricing, List.all_eq_true, or_assoc]

/-- Witness for C1 at a record whose pricing fields are all absent or
literal zero strings. -/
theorem c1_witness : (buildModelInfo freeModelRecord).is_free = true :=
  (c1_is_free_iff_zero [freeModelRecord] (buildModelInfo freeModelRecord)
      (by simp [fetch_available_models])).mpr (by decide)

/-- C7: extraction concatenates the page texts (PDF) and paragraph texts
(DOCX) each followed or separated by a newline: a PDF page with no
extractable text (or empty text) contributes nothing, so a two-page PDF
reading "A" then an empty page yields exactly "A\n", while a DOCX empty
paragraph contributes an empty line. -/
theorem c7_extraction_newlines :
    (∀ pre post, pdfConcat (pre ++ none :: post) = pdfConcat (pre ++ post)) ∧
    (∀ pre post, pdfConcat (pre ++ some "" :: post) = pdfConcat (pre ++ post)) ∧
    (∀ (t : String) (ps : List (Option String)), t ≠ "" →
        pdfConcat (some t :: ps) = t ++ "\n" ++ pdfConcat ps) ∧
    parse_pdf pdfUpload = "A\n" ∧
    parse_docx docxUpload = "A\n\nB" := by
  refine ⟨fun pre post => ?_, fun pre post => ?_, fun t ps ht => ?_, by decide, by decide⟩
  · rw [pdfConcat, List.foldl_append, List.foldl_cons, pdfConcat, List.foldl_append]
    simp [pdfStep]
  · rw [pdfConcat, List.foldl_append, List.foldl_cons, pdfConcat, List.foldl_append]
    simp [pdfStep]
  · rw [pdfConcat, List.foldl_cons, pdfConcat_foldl]
    simp only [pdfStep, if_neg ht]
    rw [strEmptyAppend]

/-- Witness for C7 (the conjunct with a hypothesis) at a two-page PDF with
non-empty texts "A" and "B". -/
theorem c7_witness :
    ("A" ≠ "") ∧ pdfConcat [some "A", some "B"] = "A" ++ "\n" ++ pdfConcat [some "B"] :=
  ⟨by decide, c7_extraction_newlines.2.2.1 "A" [some "B"] (by decide)⟩

/-- C5: for every upload to `/analyze/file`, a filename ending in `.pdf`
or `.docx` after lowercasing routes to the PDF or DOCX extractor
respectively, and any other filename is answered with an HTTP 400 error,
whatever the upstream would do (the upstream is never consulted). -/
theorem c5_file_routing (file : UploadedFile) :
    (pyEndsWith (pyLower file.filename) ".pdf" = true →
        extractResumeText file = some (parse_pdf file)) ∧
    (pyEndsWith (pyLower file.filename) ".pdf" = false →
      pyEndsWith (pyLower file.filename) ".docx" = true →
        extractResumeText file = some (parse_docx file)) ∧
    (pyEndsWith (pyLower file.filename) ".pdf" = false →
      pyEndsWith (pyLower file.filename) ".docx" = false →
        ∀ upstream parseJson job_posting model_id,
          analyze_resume_file upstream parseJson file job_posting model_id =
            Except.ok (HttpResult.err 400
              (Json.str "Unsupported file format. Only PDF or DOCX allowed."))) := by
  refine ⟨fun h1 => ?_, fun h1 h2 => ?_, fun h1 h2 upstream parseJson jp mid => ?_⟩
  · simp [extractResumeText, h1]
  · simp [extractResumeText, h1, h2]
  · simp [analyze_resume_file, extractResumeText, h1, h2]

/-- Witness for C5: `resume.PDF` routes to the PDF extractor,
`resume.docx` to the DOCX extractor, and `resume.txt` is rejected with a
400 against an upstream that would fail if called. -/
theorem c5_witness :
    extractResumeText pdfUpload = some (parse_pdf pdfUpload) ∧
    extractResumeText docxUpload = some (parse_docx docxUpload) ∧
    analyze_resume_file downUpstream noParse txtUpload "job" none =
      Except.ok (HttpResult.err 400
        (Json.str "Unsupported file format. Only PDF or DOCX allowed.")) :=
  ⟨(c5_file_routing pdfUpload).1 (by decide),
   (c5_file_routing docxUpload).2.1 (by decide) (by decide),
   (c5_file_routing txtUpload).2.2 (by decide) (by decide) downUpstream noParse "job" none⟩

/-- C6: for every upstream chat-completion reply with a non-success HTTP
status, `/analyze` responds with a 502 error whose detail message embeds
that status code and whose `suggest_model_change` flag is true. -/
theorem c6_status_error_502 (upstream : PyDict → ChatOutcome)
    (parseJson : String → Option Json) (req : AnalysisRequest) (status : Nat)
    (hup : upstream (requestBody req.resume_text req.job_posting req.model_id) =
      ChatOutcome.httpStatusError status) :
    analyze_resume upstream parseJson req =
      Except.ok (HttpResult.err 502 (Json.obj
        [("message", Json.str ("Model request failed with status " ++ toString status)),
         ("suggest_model_change", Json.bool true)])) ∧
    ∃ pre post,
      "Model request failed with status " ++ toString status =
        pre ++ toString status ++ post := by
  refine ⟨?_, "Model request failed with status ", "", (String.append_empty _).symm⟩
  have h := analyze_with_llm_status upstream parseJson
    req.resume_text req.job_posting req.model_id status hup
  simp only [analyze_resume, h, exceptBindOk]
  simp [pyContains, pyLookup, pyGetD]

/-- Witness for C6 at a stub upstream answering HTTP 429. -/
theorem c6_witness :
    analyze_resume status429Upstream noParse req0 =
      Except.ok (HttpResult.err 502 (Json.obj
        [("message", Json.str "Model request failed with status 429"),
         ("suggest_model_change", Json.bool true)])) :=
  (c6_status_error_502 status429Upstream noParse req0 429 rfl).1

theorem analyze_resume_merges (upstream : PyDict → ChatOutcome)
    (parseJson : String → Option Json) (req : AnalysisRequest)
    (outFields chFields msgFields fields : PyDict) (rest : List Json) (content : String)
    (hup : upstream (requestBody req.resume_text req.job_posting req.model_id) =
      ChatOutcome.success (Json.obj outFields))
    (hch : pyLookup outFields "choices" = some (Json.arr (Json.obj chFields :: rest)))
    (hmsg : pyLookup chFields "message" = some (Json.obj msgFields))
    (hcont : pyLookup msgFields "content" = some (Json.str content))
    (hparse : parseJson content = some (Json.obj fields))
    (herr : pyContains fields "error" = false) :
    analyze_resume upstream parseJson req =
      Except.ok (serializeAnalysisResponse
        (pySet (pySet fields "model_used" (pyGetD outFields "model" Json.null))
          "raw_llm_response" (Json.str content))) := by
  have h := analyze_with_llm_parse_ok upstream parseJson req.resume_text req.job_posting
    req.model_id outFields chFields msgFields fields rest content hup hch hmsg hcont hparse
  have hc : pyContains
      (pySet (pySet fields "model_used" (pyGetD outFields "model" Json.null))
        "raw_llm_response" (Json.str content)) "error" = false := by
    simp [pyContains_pySet, herr]
  simp only [analyze_resume, h, exceptBindOk, hc]
  simp

/-- C2 (counterexample): the content `errKeyContent` is a syntactically
valid JSON object, and the (stubbed) upstream reports a model and replies
successfully with it, yet `/analyze` answers a 502 error rather than the
parsed object merged with `model_used` and `raw_llm_response`: the merged
dict contains the key `error`, so the endpoint treats it as a failure. -/
theorem c2_counterexample :
    fixtureParse errKeyContent = some (Json.obj errKeyFields) ∧
    analyze_resume (chatUpstream errKeyContent) fixtureParse req0 =
      Except.ok (HttpResult.err 502 (Json.obj
        [("message", Json.str "oops"),
         ("suggest_model_change", Json.bool false)])) :=
  ⟨rfl, rfl⟩

/-- C2 (amended): for every upstream chat-completion success whose message
content is a syntactically valid JSON object without a top-level `error`
key and whose merged result passes the `AnalysisResponse` response-model
validation, `/analyze` returns with HTTP success the serialized object:
the schema projection of the parsed object, with `model_used` set to the
model identifier the upstream reports having used and `raw_llm_response`
set to the raw unparsed textual reply. -/
theorem c2_success_returns_merged_object (upstream : PyDict → ChatOutcome)
    (parseJson : String → Option Json) (req : AnalysisRequest)
    (outFields chFields msgFields fields out : PyDict) (rest : List Json) (content : String)
    (hup : upstream (requestBody req.resume_text req.job_posting req.model_id) =
      ChatOutcome.success (Json.obj outFields))
    (hch : pyLookup outFields "choices" = some (Json.arr (Json.obj chFields :: rest)))
    (hmsg : pyLookup chFields "message" = some (Json.obj msgFields))
    (hcont : pyLookup msgFields "content" = some (Json.str content))
    (hparse : parseJson content = some (Json.obj fields))
    (herr : pyContains fields "error" = false)
    (hval : validateAnalysisResponse
        (pySet (pySet fields "model_used" (pyGetD outFields "model" Json.null))
          "raw_llm_response" (Json.str content)) = some out) :
    analyze_resume upstream parseJson req = Except.ok (HttpResult.ok out) ∧
    pyLookup out "model_used" = some (pyGetD outFields "model" Json.null) ∧
    pyLookup out "raw_llm_response" = some (Json.str content) := by
  have hmu : pyLookup
      (pySet (pySet fields "model_used" (pyGetD outFields "model" Json.null))
        "raw_llm_response" (Json.str content)) "model_used" =
      some (pyGetD outFields "model" Json.null) := by
    rw [pyLookup_pySet, if_neg (by decide), pyLookup_pySet, if_pos rfl]
  have hraw : pyLookup
      (pySet (pySet fields "model_used" (pyGetD outFields "model" Json.null))
        "raw_llm_response" (Json.str content)) "raw_llm_response" =
      some (Json.str content) := by
    rw [pyLookup_pySet, if_pos rfl]
  obtain ⟨rs, rel, lp, sus, rf, ka, h1, h2, h3, h4, h5, h6, hout⟩ :=
    validateAnalysisResponse_shape _ _ hval
  refine ⟨?_, ?_, ?_⟩
  · have hm := analyze_resume_merges upstream parseJson req outFields chFields msgFields fields
      rest content hup hch hmsg hcont hparse herr
    rw [hm]
    simp only [serializeAnalysisResponse, hval]
  · subst hout
    simp [pyLookup, hmu]
  · subst hout
    simp [pyLookup, hraw]

/-- Witness for C2 at the exact test-case object of the spec, which
validates against the response model. -/
theorem c2_witness :
    fixtureParse specContent = some (Json.obj specFields) ∧
    analyze_resume (chatUpstream specContent) fixtureParse req0 =
      Except.ok (HttpResult.ok
        (specFields ++
         [("model_used", Json.str "openai/gpt-4o"),
          ("raw_llm_response", Json.str specContent)])) :=
  ⟨rfl,
   (c2_success_returns_merged_object (chatUpstream specContent) fixtureParse req0
     [("choices", Json.arr [Json.obj [("message", Json.obj [("content", Json.str specContent)])]]),
      ("model", Json.str "openai/gpt-4o")]
     [("message", Json.obj [("content", Json.str specContent)])]
     [("content", Json.str specContent)]
     specFields
     (specFields ++
      [("model_used", Json.str "openai/gpt-4o"),
       ("raw_llm_response", Json.str specContent)])
     [] specContent rfl rfl rfl rfl rfl rfl rfl).1⟩

/-- C3 (counterexample): with non-JSON message content, `/analyze` does
answer 502 with `suggest_model_change` true, but the 502 payload consists
only of `message` and `suggest_model_change`: it has no `raw` key and no
field mentioning the raw content, so the raw unparsed content is not
preserved in the response. -/
theorem c3_counterexample :
    fixtureParse proseContent = none ∧
    analyze_resume (chatUpstream proseContent) fixtureParse req0 =
      Except.ok (HttpResult.err 502 (Json.obj
        [("message", Json.str "LLM did not return valid JSON"),
         ("suggest_model_change", Json.bool true)])) ∧
    pyLookup
      [("message", Json.str "LLM did not return valid JSON"),
       ("suggest_model_change", Json.bool true)] "raw" = none ∧
    objMentions
      [("message", Json.str "LLM did not return valid JSON"),
       ("suggest_model_change", Json.bool true)] proseContent = false :=
  ⟨rfl, rfl, rfl, by decide⟩

/-- C3 (amended): for every upstream chat-completion success whose message
content is not parseable as JSON, the analysis client keeps the raw
unparsed content in the `raw` field of its internal error dict, and
`/analyze` responds 502 with `suggest_model_change` true — but the 502
payload carries only `message` and `suggest_model_change`, dropping the
raw content. -/
theorem c3_parse_fail_502 (upstream : PyDict → ChatOutcome)
    (parseJson : String → Option Json) (req : AnalysisRequest)
    (outFields chFields msgFields : PyDict) (rest : List Json) (content : String)
    (hup : upstream (requestBody req.resume_text req.job_posting req.model_id) =
      ChatOutcome.success (Json.obj outFields))
    (hch : pyLookup outFields "choices" = some (Json.arr (Json.obj chFields :: rest)))
    (hmsg : pyLookup chFields "message" = some (Json.obj msgFields))
    (hcont : pyLookup msgFields "content" = some (Json.str content))
    (hparse : parseJson content = none) :
    analyze_with_llm upstream parseJson req.resume_text req.job_posting req.model_id =
      Except.ok
        [("error", Json.str "LLM did not return valid JSON"),
         ("raw", Json.str content),
         ("suggest_model_change", Json.bool true)] ∧
    analyze_resume upstream parseJson req =
      Except.ok (HttpResult.err 502 (Json.obj
        [("message", Json.str "LLM did not return valid JSON"),
         ("suggest_model_change", Json.bool true)])) := by
  have h := analyze_with_llm_parse_fail upstream parseJson req.resume_text req.job_posting
    req.model_id outFields chFields msgFields rest content hup hch hmsg hcont hparse
  refine ⟨h, ?_⟩
  simp only [analyze_resume, h, exceptBindOk]
  simp [pyContains, pyLookup, pyGetD]

/-- Witness for C3 at the concrete prose content. -/
theorem c3_witness :
    fixtureParse proseContent = none ∧
    analyze_with_llm (chatUpstream proseContent) fixtureParse
        req0.resume_text req0.job_posting req0.model_id =
      Except.ok
        [("error", Json.str "LLM did not return valid JSON"),
         ("raw", Json.str proseContent),
         ("suggest_model_change", Json.bool true)] :=
  ⟨rfl,
   (c3_parse_fail_502 (chatUpstream proseContent) fixtureParse req0
     [("choices", Json.arr [Json.obj [("message", Json.obj [("content", Json.str proseContent)])]]),
      ("model", Json.str "openai/gpt-4o")]
     [("message", Json.obj [("content", Json.str proseContent)])]
     [("content", Json.str proseContent)]
     [] proseContent rfl rfl rfl rfl rfl).1⟩

/-- C4 (counterexample): a syntactically valid JSON reply without an
`error` key but missing the required `AnalysisResponse` fields is not
passed through unchanged: the declared response model rejects it and
`/analyze` answers the framework 500 response-validation error instead of
returning the object, so schema validation is applied on the success
path. -/
theorem c4_counterexample :
    fixtureParse oddShapeContent = some (Json.obj oddShapeFields) ∧
    pyContains oddShapeFields "error" = false ∧
    analyze_resume (chatUpstream oddShapeContent) fixtureParse req0 =
      Except.ok (HttpResult.err 500 (Json.str "Internal Server Error")) :=
  ⟨rfl, rfl, rfl⟩

/-- C4 (amended): on a successful analysis the parsed object is validated
against the declared `AnalysisResponse` response model: if any of the six
required fields is missing from the parsed object the endpoint fails with
the framework 500 response-validation error, and when validation succeeds
the response is the schema projection of the merged object — the required
fields taken unchanged from the parsed object, plus `model_used` and
`raw_llm_response`, with keys outside the schema stripped. -/
theorem c4_response_model_validation (upstream : PyDict → ChatOutcome)
    (parseJson : String → Option Json) (req : AnalysisRequest)
    (outFields chFields msgFields fields : PyDict) (rest : List Json) (content : String)
    (hup : upstream (requestBody req.resume_text req.job_posting req.model_id) =
      ChatOutcome.success (Json.obj outFields))
    (hch : pyLookup outFields "choices" = some (Json.arr (Json.obj chFields :: rest)))
    (hmsg : pyLookup chFields "message" = some (Json.obj msgFields))
    (hcont : pyLookup msgFields "content" = some (Json.str content))
    (hparse : parseJson content = some (Json.obj fields))
    (herr : pyContains fields "error" = false) :
    (∀ kreq, kreq ∈ analysisRequiredKeys → pyContains fields kreq = false →
        analyze_resume upstream parseJson req =
          Except.ok (HttpResult.err 500 (Json.str "Internal Server Error"))) ∧
    (∀ out, validateAnalysisResponse
          (pySet (pySet fields "model_used" (pyGetD outFields "model" Json.null))
            "raw_llm_response" (Json.str content)) = some out →
        analyze_resume upstream parseJson req = Except.ok (HttpResult.ok out) ∧
        (∀ k, k ∉ analysisSchemaKeys → pyLookup out k = none) ∧
        (∀ kreq, kreq ∈ analysisRequiredKeys →
            pyLookup out kreq = pyLookup fields kreq)) := by
  have hm := analyze_resume_merges upstream parseJson req outFields chFields msgFields fields
    rest content hup hch hmsg hcont hparse herr
  constructor
  · intro kreq hkreq hmiss
    have h0 : pyLookup fields kreq = none := by
      cases hl : pyLookup fields kreq with
      | none => rfl
      | some v => rw [pyContains, hl] at hmiss; simp at hmiss
    have hne1 : "model_used" ≠ kreq := by fin_cases hkreq <;> decide
    have hne2 : "raw_llm_response" ≠ kreq := by fin_cases hkreq <;> decide
    have hmiss2 : pyLookup
        (pySet (pySet fields "model_used" (pyGetD outFields "model" Json.null))
          "raw_llm_response" (Json.str content)) kreq = none := by
      rw [pyLookup_pySet, if_neg hne2, pyLookup_pySet, if_neg hne1, h0]
    rw [hm]
    simp only [serializeAnalysisResponse,
      validateAnalysisResponse_missing _ kreq hkreq hmiss2]
  · intro out hval
    obtain ⟨rs, rel, lp, sus, rf, ka, h1, h2, h3, h4, h5, h6, hout⟩ :=
      validateAnalysisResponse_shape _ _ hval
    refine ⟨?_, ?_, ?_⟩
    · rw [hm]
      simp only [serializeAnalysisResponse, hval]
    · subst hout
      intro k hk
      simp only [analysisSchemaKeys, analysisRequiredKeys, List.append_eq, List.cons_append,
        List.nil_append, List.mem_cons, List.not_mem_nil, or_false, not_or] at hk
      obtain ⟨n1, n2, n3, n4, n5, n6, n7, n8⟩ := hk
      simp only [pyLookup]
      rw [if_neg fun h => n1 h.symm, if_neg fun h => n2 h.symm,
        if_neg fun h => n3 h.symm, if_neg fun h => n4 h.symm,
        if_neg fun h => n5 h.symm, if_neg fun h => n6 h.symm,
        if_neg fun h => n7 h.symm, if_neg fun h => n8 h.symm]
    · intro kreq hkreq
      have hne1 : "model_used" ≠ kreq := by fin_cases hkreq <;> decide
      have hne2 : "raw_llm_response" ≠ kreq := by fin_cases hkreq <;> decide
      have hpres : pyLookup
          (pySet (pySet fields "model_used" (pyGetD outFields "model" Json.null))
            "raw_llm_response" (Json.str content)) kreq = pyLookup fields kreq := by
        rw [pyLookup_pySet, if_neg hne2, pyLookup_pySet, if_neg hne1]
      subst hout
      fin_cases hkreq <;>
        (rw [← hpres]
         simp [pyLookup, h1, h2, h3, h4, h5, h6])

/-- Witness for C4: the object with only an `unexpected` key misses the
required field `relevancy_score`, so the endpoint answers the framework
500 response-validation error. -/
theorem c4_witness :
    pyContains oddShapeFields "relevancy_score" = false ∧
    analyze_resume (chatUpstream oddShapeContent) fixtureParse req0 =
      Except.ok (HttpResult.err 500 (Json.str "Internal Server Error")) :=
  ⟨rfl,
   (c4_response_model_validation (chatUpstream oddShapeContent) fixtureParse req0
     [("choices", Json.arr [Json.obj [("message", Json.obj [("content", Json.str oddShapeContent)])]]),
      ("model", Json.str "openai/gpt-4o")]
     [("message", Json.obj [("content", Json.str oddShapeContent)])]
     [("content", Json.str oddShapeContent)]
     oddShapeFields [] oddShapeContent rfl rfl rfl rfl rfl rfl).1
     "relevancy_score" (by decide) rfl⟩

/-- C9: for every upstream chat-completion success whose message content
parses as a JSON object containing a top-level `error` key, both
`/analyze` and `/analyze/file` (here: a `.pdf` upload) answer a 502 error
built from that key's value, with `suggest_model_change` defaulting to
whatever the object carries (false when absent), instead of returning the
analysis object: the `error` check cannot tell an LLM-authored `error`
field from a genuine upstream failure. -/
theorem c9_error_key_hijacks_response (upstream : PyDict → ChatOutcome)
    (parseJson : String → Option Json) (req : AnalysisRequest)
    (file : UploadedFile) (job_posting : String) (model_id : Option String)
    (outFields chFields msgFields fields : PyDict) (rest : List Json)
    (content : String) (ev : Json)
    (hup : ∀ b, upstream b = ChatOutcome.success (Json.obj outFields))
    (hch : pyLookup outFields "choices" = some (Json.arr (Json.obj chFields :: rest)))
    (hmsg : pyLookup chFields "message" = some (Json.obj msgFields))
    (hcont : pyLookup msgFields "content" = some (Json.str content))
    (hparse : parseJson content = some (Json.obj fields))
    (herr : pyLookup fields "error" = some ev)
    (hpdf : pyEndsWith (pyLower file.filename) ".pdf" = true) :
    analyze_resume upstream parseJson req =
      Except.ok (HttpResult.err 502 (Json.obj
        [("message", ev),
         ("suggest_model_change", pyGetD fields "suggest_model_change" (Json.bool false))])) ∧
    analyze_resume_file upstream parseJson file job_posting model_id =
      Except.ok (HttpResult.err 502 (Json.obj
        [("message", ev),
         ("suggest_model_change", pyGetD fields "suggest_model_change" (Json.bool false))])) := by
  have hc : pyContains
      (pySet (pySet fields "model_used" (pyGetD outFields "model" Json.null))
        "raw_llm_response" (Json.str content)) "error" = true := by
    rw [pyContains_pySet, pyContains_pySet]
    simp [pyContains, herr]
  have hm : pyGetD
      (pySet (pySet fields "model_used" (pyGetD outFields "model" Json.null))
        "raw_llm_response" (Json.str content)) "error" Json.null = ev := by
    rw [pyGetD, pyLookup_pySet, if_neg (by decide), pyLookup_pySet, if_neg (by decide), herr]
    rfl
  have hs : pyGetD
      (pySet (pySet fields "model_used" (pyGetD outFields "model" Json.null))
        "raw_llm_response" (Json.str content)) "suggest_model_change" (Json.bool false) =
      pyGetD fields "suggest_model_change" (Json.bool false) := by
    rw [pyGetD, pyLookup_pySet, if_neg (by decide), pyLookup_pySet, if_neg (by decide), pyGetD]
  constructor
  · have h := analyze_with_llm_parse_ok upstream parseJson req.resume_text req.job_posting
      req.model_id outFields chFields msgFields fields rest content (hup _) hch hmsg hcont hparse
    simp only [analyze_resume, h, exceptBindOk, hc, hm, hs]
    simp
  · have h := analyze_with_llm_parse_ok upstream parseJson (parse_pdf file) job_posting
      model_id outFields chFields msgFields fields rest content (hup _) hch hmsg hcont hparse
    simp only [analyze_resume_file, extractResumeText, hpdf, if_pos, h, exceptBindOk, hc, hm, hs]

/-- Witness for C9: a stubbed upstream whose reply content is the JSON
object with only an `error` key, checked on both endpoints. -/
theorem c9_witness :
    pyEndsWith (pyLower pdfUpload.filename) ".pdf" = true ∧
    analyze_resume (chatUpstream errKeyContent) fixtureParse req0 =
      Except.ok (HttpResult.err 502 (Json.obj
        [("message", Json.str "oops"),
         ("suggest_model_change", Json.bool false)])) ∧
    analyze_resume_file (chatUpstream errKeyContent) fixtureParse pdfUpload "job" none =
      Except.ok (HttpResult.err 502 (Json.obj
        [("message", Json.str "oops"),
         ("suggest_model_change", Json.bool false)])) := by
  have h := c9_error_key_hijacks_response (chatUpstream errKeyContent) fixtureParse req0
    pdfUpload "job" none
    [("choices", Json.arr [Json.obj [("message", Json.obj [("content", Json.str errKeyContent)])]]),
     ("model", Json.str "openai/gpt-4o")]
    [("message", Json.obj [("content", Json.str errKeyContent)])]
    [("content", Json.str errKeyContent)]
    errKeyFields [] errKeyContent (Json.str "oops")
    (fun b => rfl) rfl rfl rfl rfl rfl (by decide)
  exact ⟨by decide, h.1, h.2⟩

/-- C8 (counterexample): the caller can supply the model override as the
empty string — a supplied override — yet the request body then carries no
`model` field, refuting the claimed equivalence between "field present"
and "override supplied". -/
theorem c8_counterexample :
    (some "" : Option String) ≠ none ∧
    pyContains (requestBody "resume text" "job posting" (some "")) "model" = false :=
  ⟨by decide, rfl⟩

/-- C8 (amended): the upstream request body contains the `model` field if
and only if a non-empty model override was supplied; an absent or
empty-string override leaves the body without a model field, so the
provider default is used. -/
theorem c8_model_field_iff_nonempty_override (r j : String) (m : Option String) :
    pyContains (requestBody r j m) "model" = true ↔
      ∃ s, m = some s ∧ s ≠ "" := by
  cases m with
  | none =>
      rw [show pyContains (requestBody r j none) "model" = false from rfl]
      simp
  | some s =>
      by_cases hs : s = ""
      · subst hs
        rw [show pyContains (requestBody r j (some "")) "model" = false from rfl]
        simp
      · rw [show requestBody r j (some s) =
            pySet (requestBody r j none) "model" (Json.str s) from by
          simp [requestBody, hs]]
        rw [pyContains_pySet]
        exact iff_of_true (by simp) ⟨s, rfl, hs⟩

/-- C10: supplying `model_id` as the empty string behaves exactly like an
absent override: the built request body is identical, and in particular it
carries no `model` field. -/
theorem c10_empty_override_like_absent (r j : String) :
    requestBody r j (some "") = requestBody r j none ∧
    pyContains (requestBody r j (some "")) "model" = false :=
  ⟨rfl, rfl⟩
